import Mathlib

/-!
Verification of the lens-configuration and pricing core of the tashnaeyewear
storefront. Definitions are shallow embeddings of the TypeScript source:
  - src/src/components/LensSelector.tsx (current revision, second document)
  - src/src/pages/ProductDetail.tsx
  - src/src/pages/Checkout.tsx
  - src/src/App.tsx (cart context)
  - src/src/pages/admin/Orders.tsx (prism render gate)
Currency amounts are embedded as rationals (the source uses 2-decimal
fixed-point numbers), strings as `String`, nullable/optional values as
`Option`. JavaScript truthiness on strings (empty string is falsy) and on
numbers (zero is falsy) is made explicit at each use site.
-/

namespace Tashna

/-- EyeData from LensSelector.tsx: per-eye prescription scalars, kept as the
raw option strings the UI selects. -/
structure EyeData where
  sph : String
  cyl : String
  axis : String
  add : String
  pd : String
deriving Repr, DecidableEq

/-- PrismData from LensSelector.tsx. -/
structure PrismData where
  verticalPrism : String
  verticalBase : String
  horizontalPrism : String
  horizontalBase : String
deriving Repr, DecidableEq

/-- The prescriptionData payload built by getCompletePrescriptionData
(LensSelector.tsx lines 689-702). -/
structure PrescriptionRecord where
  rightEye : EyeData
  leftEye : EyeData
  rightPrism : Option PrismData
  leftPrism : Option PrismData
  twoPDNumbers : Bool
  addPrism : Bool
deriving Repr, DecidableEq

inductive PrescriptionType where
  | upload
  | manual
deriving Repr, DecidableEq

/-- A browser File as far as the validation logic reads it: MIME type string
and byte size (plus the name shown in toasts). -/
structure UploadedFile where
  name : String
  type : String
  size : Nat
deriving Repr, DecidableEq

/-- LensConfiguration, the snapshot interface exported by LensSelector.tsx
(lines 579-592). Optional TS fields are Option; lensTypeId may be
`some ""` because some handlers pass the raw selectedLensType string. -/
structure LensConfiguration where
  hasEyesight : Bool
  lensTypeId : Option String
  prescriptionType : Option PrescriptionType
  prescriptionImage : Option UploadedFile
  prescriptionData : Option PrescriptionRecord
deriving Repr, DecidableEq

/-- JavaScript truthiness of an optional string: undefined and the empty
string are falsy. -/
def optStrTruthy : Option String → Bool
  | none => false
  | some s => s != ""

/-! ## Price Aggregator (ProductDetail.tsx and Checkout.tsx) -/

/-- products row, the fields calculateTotalPrice reads. -/
structure Product where
  id : String
  base_price : ℚ
  has_lens_options : Bool
deriving Repr, DecidableEq

/-- product_variants row as fetched on the product page. -/
structure ProductVariant where
  id : String
  price_adjustment : Option ℚ
deriving Repr, DecidableEq

/-- lens_types row as fetched on the product page. -/
structure LensTypeRow where
  id : String
  price_adjustment : Option ℚ
deriving Repr, DecidableEq

/-- calculateTotalPrice from ProductDetail.tsx lines 147-165. The variant
adjustment is added when selectedVariant is truthy, the variant is found and
its price_adjustment is truthy (nonzero, non-null); the lens-type adjustment
is added whenever lensConfig.lensTypeId is truthy, the lens type is found
and its price_adjustment is truthy. The accumulated unit total is then
multiplied by quantity. -/
def calculateTotalPrice (product : Product) (variants : List ProductVariant)
    (lensTypes : List LensTypeRow) (selectedVariant : String)
    (lensConfig : LensConfiguration) (quantity : ℕ) : ℚ :=
  let total := product.base_price
  let total :=
    if selectedVariant != "" then
      match variants.find? (fun v => decide (v.id = selectedVariant)) with
      | some v =>
        match v.price_adjustment with
        | some a => if a ≠ 0 then total + a else total
        | none => total
      | none => total
    else total
  let total :=
    if optStrTruthy lensConfig.lensTypeId then
      match lensTypes.find? (fun l => decide (some l.id = lensConfig.lensTypeId)) with
      | some l =>
        match l.price_adjustment with
        | some a => if a ≠ 0 then total + a else total
        | none => total
      | none => total
    else total
  total * (quantity : ℚ)

/-! ## Cart context (App.tsx lines 253-283) -/

/-- The argument record of the cart context addToCart; TS optional
parameters are Option, quantity defaults to 1 at call sites that omit it. -/
structure AddToCartArgs where
  productId : String
  variantId : Option String
  lensTypeId : Option String
  quantity : ℕ
  hasEyesight : Option Bool
  prescriptionData : Option PrescriptionRecord
  prescriptionImageUrl : Option String
deriving Repr, DecidableEq

/-- cart_items row produced by addToCart. -/
structure CartRow where
  product_id : String
  variant_id : Option String
  lens_type_id : Option String
  quantity : ℕ
  has_eyesight : Bool
  prescription_data : Option PrescriptionRecord
  prescription_image_url : Option String
deriving Repr, DecidableEq

/-- JavaScript `x || null` on an optional string: undefined and "" map to
null. -/
def orNullStr : Option String → Option String
  | none => none
  | some s => if s = "" then none else some s

/-- The cartData record addToCart inserts (App.tsx lines 264-272):
`variantId || null`, `lensTypeId || null`, `hasEyesight || false`,
`prescriptionData || null`, `prescriptionImageUrl || null`. -/
def addToCart (args : AddToCartArgs) : CartRow :=
  { product_id := args.productId
    variant_id := orNullStr args.variantId
    lens_type_id := orNullStr args.lensTypeId
    quantity := args.quantity
    has_eyesight := args.hasEyesight.getD false
    prescription_data := args.prescriptionData
    prescription_image_url := orNullStr args.prescriptionImageUrl }

/-- handleAddToCart from ProductDetail.tsx lines 206-220: it forwards only
(product.id, selectedVariant || undefined, lensConfig.lensTypeId ||
undefined, quantity); the eyesight flag, prescription data and prescription
image of the configuration are not passed. -/
def productDetailAddToCart (product : Product) (selectedVariant : String)
    (lensConfig : LensConfiguration) (quantity : ℕ) : CartRow :=
  addToCart
    { productId := product.id
      variantId := if selectedVariant = "" then none else some selectedVariant
      lensTypeId :=
        match lensConfig.lensTypeId with
        | none => none
        | some s => if s = "" then none else some s
      quantity := quantity
      hasEyesight := none
      prescriptionData := none
      prescriptionImageUrl := none }

/-- handleAddToCart from ProductCard (src/unnamed/part_007 lines 18-21):
`addToCart(id)` with every optional argument omitted; quantity takes its
TS default value 1. -/
def productCardQuickAdd (id : String) : CartRow :=
  addToCart
    { productId := id
      variantId := none
      lensTypeId := none
      quantity := 1
      hasEyesight := none
      prescriptionData := none
      prescriptionImageUrl := none }

/-! ## Checkout (Checkout.tsx) -/

/-- The joined cart item Checkout.tsx fetches (lines 14-37): the cart row
together with the joined product, variant and lens-type price columns. -/
structure CheckoutCartItem where
  product_id : String
  variant_id : Option String
  lens_type_id : Option String
  quantity : ℕ
  has_eyesight : Bool
  prescription_data : Option PrescriptionRecord
  prescription_image_url : Option String
  products_base_price : ℚ
  product_variants : Option (Option ℚ)
  lens_types : Option (Option ℚ)
deriving Repr, DecidableEq

/-- calculateItemPrice from Checkout.tsx lines 132-141: base price plus the
joined variant price_adjustment when truthy, plus the joined lens-type
price_adjustment when truthy. -/
def calculateItemPrice (item : CheckoutCartItem) : ℚ :=
  let price := item.products_base_price
  let price :=
    match item.product_variants with
    | some (some a) => if a ≠ 0 then price + a else price
    | _ => price
  let price :=
    match item.lens_types with
    | some (some a) => if a ≠ 0 then price + a else price
    | _ => price
  price

/-- subtotal from Checkout.tsx line 143: reduce over cart items of
calculateItemPrice(item) * item.quantity starting from 0. -/
def subtotal (items : List CheckoutCartItem) : ℚ :=
  items.foldl (fun sum item => sum + calculateItemPrice item * (item.quantity : ℚ)) 0

/-- shippingCost from Checkout.tsx line 144: `subtotal > 5000 ? 0 : 200`. -/
def shippingCost (items : List CheckoutCartItem) : ℚ :=
  if subtotal items > 5000 then 0 else 200

/-- total from Checkout.tsx line 145. -/
def checkoutTotal (items : List CheckoutCartItem) : ℚ :=
  subtotal items + shippingCost items

/-- order_items row created by handlePlaceOrder. -/
structure OrderItem where
  order_id : String
  product_id : String
  variant_id : Option String
  lens_type_id : Option String
  quantity : ℕ
  unit_price : ℚ
  total_price : ℚ
  has_eyesight : Bool
  prescription_data : Option PrescriptionRecord
  prescription_image_url : Option String
deriving Repr, DecidableEq

/-- The per-item mapping inside handlePlaceOrder, Checkout.tsx lines
244-255: the lens-configuration columns are copied verbatim from the cart
item onto the order item. -/
def orderItemOf (orderId : String) (item : CheckoutCartItem) : OrderItem :=
  { order_id := orderId
    product_id := item.product_id
    variant_id := item.variant_id
    lens_type_id := item.lens_type_id
    quantity := item.quantity
    unit_price := calculateItemPrice item
    total_price := calculateItemPrice item * (item.quantity : ℚ)
    has_eyesight := item.has_eyesight
    prescription_data := item.prescription_data
    prescription_image_url := item.prescription_image_url }

/-- The fetched checkout view of a cart row (the select with joins in
Checkout.tsx lines 92-103): the row columns come back verbatim, joined
price columns come from the catalog. -/
def checkoutItemOfRow (row : CartRow) (basePrice : ℚ)
    (variantAdj : Option (Option ℚ)) (lensAdj : Option (Option ℚ)) :
    CheckoutCartItem :=
  { product_id := row.product_id
    variant_id := row.variant_id
    lens_type_id := row.lens_type_id
    quantity := row.quantity
    has_eyesight := row.has_eyesight
    prescription_data := row.prescription_data
    prescription_image_url := row.prescription_image_url
    products_base_price := basePrice
    product_variants := variantAdj
    lens_types := lensAdj }

/-! ## Configuration Builder (LensSelector.tsx, current revision)

The component state is the tuple of useState cells (lines 612-630); each
user interaction is a handler that updates some cells and usually calls
onLensConfigChange with a freshly built snapshot. React state setters do
not change the values captured by the running handler, so a handler that
reads a cell it (or a sibling setter in the same handler) just wrote still
sees the pre-event value; the embedding reproduces this by always reading
the pre-event state record inside a handler. -/

structure SelectorState where
  hasEyesight : Bool
  selectedLensType : String
  prescriptionType : PrescriptionType
  prescriptionFile : Option UploadedFile
  rightEye : EyeData
  leftEye : EyeData
  rightPrism : PrismData
  leftPrism : PrismData
  twoPDNumbers : Bool
  addPrism : Bool
deriving Repr, DecidableEq

/-- Initial useState values, LensSelector.tsx lines 612-630. -/
def initialState : SelectorState :=
  { hasEyesight := false
    selectedLensType := ""
    prescriptionType := .upload
    prescriptionFile := none
    rightEye := { sph := "0.00", cyl := "0.00", axis := "0", add := "0.00", pd := "" }
    leftEye := { sph := "0.00", cyl := "0.00", axis := "0", add := "0.00", pd := "" }
    rightPrism := { verticalPrism := "0.00", verticalBase := "n/a",
                    horizontalPrism := "0.00", horizontalBase := "n/a" }
    leftPrism := { verticalPrism := "0.00", verticalBase := "n/a",
                   horizontalPrism := "0.00", horizontalBase := "n/a" }
    twoPDNumbers := false
    addPrism := false }

/-- getCompletePrescriptionData, LensSelector.tsx lines 689-702. The
custom arguments override the state cells (`customRightEye || rightEye`;
object values are always truthy, so this is Option.getD); prism parts are
emitted only when addPrism is true; twoPDNumbers and addPrism are read from
the captured (pre-event) state. -/
def getCompletePrescriptionData (s : SelectorState)
    (customRightEye customLeftEye : Option EyeData)
    (customRightPrism customLeftPrism : Option PrismData) : PrescriptionRecord :=
  { rightEye := customRightEye.getD s.rightEye
    leftEye := customLeftEye.getD s.leftEye
    rightPrism := if s.addPrism then some (customRightPrism.getD s.rightPrism) else none
    leftPrism := if s.addPrism then some (customLeftPrism.getD s.leftPrism) else none
    twoPDNumbers := s.twoPDNumbers
    addPrism := s.addPrism }

/-- The snapshot shape shared by every manual-entry handler: hasEyesight
hard-coded to true, the raw selectedLensType string, prescriptionType
manual, and the given prescription data. -/
def manualSnapshot (s : SelectorState) (d : PrescriptionRecord) : LensConfiguration :=
  { hasEyesight := true
    lensTypeId := some s.selectedLensType
    prescriptionType := some .manual
    prescriptionImage := none
    prescriptionData := some d }

/-- handleEyesightChange, lines 704-713. Emits lensTypeId as
`selectedLensType || undefined` and never includes prescriptionData. -/
def handleEyesightChange (s : SelectorState) (value : String) :
    SelectorState × Option LensConfiguration :=
  let hasEye := value == "yes"
  ({ s with hasEyesight := hasEye },
   some { hasEyesight := hasEye
          lensTypeId := if s.selectedLensType = "" then none else some s.selectedLensType
          prescriptionType := if hasEye then some s.prescriptionType else none
          prescriptionImage :=
            if hasEye ∧ s.prescriptionType = .upload then s.prescriptionFile else none
          prescriptionData := none })

/-- handleLensTypeChange, lines 715-724. Emits the raw lensTypeId string. -/
def handleLensTypeChange (s : SelectorState) (lensTypeId : String) :
    SelectorState × Option LensConfiguration :=
  ({ s with selectedLensType := lensTypeId },
   some { hasEyesight := s.hasEyesight
          lensTypeId := some lensTypeId
          prescriptionType := if s.hasEyesight then some s.prescriptionType else none
          prescriptionImage :=
            if s.hasEyesight ∧ s.prescriptionType = .upload then s.prescriptionFile else none
          prescriptionData :=
            if s.hasEyesight ∧ s.prescriptionType = .manual then
              some (getCompletePrescriptionData s none none none none)
            else none })

/-- handlePrescriptionTypeChange, lines 726-737: forces hasEyesight true
and emits only the branch matching the newly chosen type. -/
def handlePrescriptionTypeChange (s : SelectorState) (t : PrescriptionType) :
    SelectorState × Option LensConfiguration :=
  ({ s with hasEyesight := true, prescriptionType := t },
   some { hasEyesight := true
          lensTypeId := some s.selectedLensType
          prescriptionType := some t
          prescriptionImage := if t = .upload then s.prescriptionFile else none
          prescriptionData :=
            if t = .manual then some (getCompletePrescriptionData s none none none none)
            else none })

/-- The accepted MIME types, LensSelector.tsx line 744. -/
def validTypes : List String :=
  ["image/jpeg", "image/jpg", "image/png", "application/pdf"]

/-- handleFileChange, lines 739-789: rejects (state unchanged, no snapshot)
when the MIME type is not in validTypes or the size exceeds 5 * 1024 * 1024
bytes; otherwise stores the file, forces hasEyesight true, and emits an
upload snapshot carrying the file. The component prescriptionType cell is
not changed on success, only the snapshot says upload. -/
def handleFileChange (s : SelectorState) (file : UploadedFile) :
    SelectorState × Option LensConfiguration :=
  if ¬ (file.type ∈ validTypes) then (s, none)
  else if file.size > 5 * 1024 * 1024 then (s, none)
  else
    ({ s with prescriptionFile := some file, hasEyesight := true },
     some { hasEyesight := true
            lensTypeId := some s.selectedLensType
            prescriptionType := some .upload
            prescriptionImage := some file
            prescriptionData := none })

/-- handleRemoveFile, lines 791-803. -/
def handleRemoveFile (s : SelectorState) : SelectorState × Option LensConfiguration :=
  ({ s with prescriptionFile := none },
   some { hasEyesight := s.hasEyesight
          lensTypeId := some s.selectedLensType
          prescriptionType := some .upload
          prescriptionImage := none
          prescriptionData := none })

inductive EyeSide where
  | right
  | left
deriving Repr, DecidableEq

inductive EyeField where
  | sph
  | cyl
  | axis
  | add
deriving Repr, DecidableEq

inductive PrismField where
  | verticalPrism
  | verticalBase
  | horizontalPrism
  | horizontalBase
deriving Repr, DecidableEq

/-- One-field update of an EyeData record, mirroring the object spreads
such as `{ ...rightEye, sph: value }`. -/
def setEyeField (e : EyeData) (f : EyeField) (v : String) : EyeData :=
  match f with
  | .sph => { e with sph := v }
  | .cyl => { e with cyl := v }
  | .axis => { e with axis := v }
  | .add => { e with add := v }

/-- One-field update of a PrismData record. -/
def setPrismField (p : PrismData) (f : PrismField) (v : String) : PrismData :=
  match f with
  | .verticalPrism => { p with verticalPrism := v }
  | .verticalBase => { p with verticalBase := v }
  | .horizontalPrism => { p with horizontalPrism := v }
  | .horizontalBase => { p with horizontalBase := v }

/-- The eight per-eye Select onValueChange handlers (lines 1005-1227). All
set hasEyesight true, store the updated eye and emit a manual snapshot.
Seven of them pass the updated eye into getCompletePrescriptionData; the
right-eye SPH handler (lines 1005-1017) calls getCompletePrescriptionData()
with no arguments, so its snapshot is built from the captured pre-event
rightEye cell. -/
def handleEyeFieldChange (s : SelectorState) (side : EyeSide) (f : EyeField)
    (v : String) : SelectorState × Option LensConfiguration :=
  match side with
  | .right =>
    let newRightEye := setEyeField s.rightEye f v
    let d :=
      match f with
      | .sph => getCompletePrescriptionData s none none none none
      | _ => getCompletePrescriptionData s (some newRightEye) (some s.leftEye) none none
    ({ s with hasEyesight := true, rightEye := newRightEye },
     some (manualSnapshot s d))
  | .left =>
    let newLeftEye := setEyeField s.leftEye f v
    ({ s with hasEyesight := true, leftEye := newLeftEye },
     some (manualSnapshot s
       (getCompletePrescriptionData s (some s.rightEye) (some newLeftEye) none none)))

/-- The two-PD Checkbox onCheckedChange, lines 1235-1252: checking it only
flips the flag; unchecking clears both pd cells and emits a snapshot (whose
twoPDNumbers field is read from the stale pre-event state). -/
def handleTwoPDChange (s : SelectorState) (checked : Bool) :
    SelectorState × Option LensConfiguration :=
  if checked then ({ s with twoPDNumbers := true }, none)
  else
    let newRightEye := { s.rightEye with pd := "" }
    let newLeftEye := { s.leftEye with pd := "" }
    ({ s with twoPDNumbers := false, rightEye := newRightEye, leftEye := newLeftEye },
     some (manualSnapshot s
       (getCompletePrescriptionData s (some newRightEye) (some newLeftEye) none none)))

/-- The add-prism Checkbox onCheckedChange, lines 1259-1263: only flips the
flag, no snapshot. -/
def handleAddPrismChange (s : SelectorState) (checked : Bool) :
    SelectorState × Option LensConfiguration :=
  ({ s with addPrism := checked }, none)

/-- The single-PD Select onValueChange, lines 1330-1358: writes the same
value into both pd cells. -/
def handleSinglePDChange (s : SelectorState) (v : String) :
    SelectorState × Option LensConfiguration :=
  let newRightEye := { s.rightEye with pd := v }
  let newLeftEye := { s.leftEye with pd := v }
  ({ s with hasEyesight := true, rightEye := newRightEye, leftEye := newLeftEye },
   some (manualSnapshot s
     (getCompletePrescriptionData s (some newRightEye) (some newLeftEye) none none)))

/-- The dual-PD Selects, lines 1275-1327: each writes one pd cell. -/
def handleDualPDChange (s : SelectorState) (side : EyeSide) (v : String) :
    SelectorState × Option LensConfiguration :=
  match side with
  | .right =>
    let newRightEye := { s.rightEye with pd := v }
    ({ s with hasEyesight := true, rightEye := newRightEye },
     some (manualSnapshot s
       (getCompletePrescriptionData s (some newRightEye) (some s.leftEye) none none)))
  | .left =>
    let newLeftEye := { s.leftEye with pd := v }
    ({ s with hasEyesight := true, leftEye := newLeftEye },
     some (manualSnapshot s
       (getCompletePrescriptionData s (some s.rightEye) (some newLeftEye) none none)))

/-- The eight prism Select handlers, lines 1384-1593: update one prism cell
(they do not touch hasEyesight state) and emit a manual snapshot passing
only the updated prism record. -/
def handlePrismFieldChange (s : SelectorState) (side : EyeSide) (f : PrismField)
    (v : String) : SelectorState × Option LensConfiguration :=
  match side with
  | .right =>
    let newRightPrism := setPrismField s.rightPrism f v
    ({ s with rightPrism := newRightPrism },
     some (manualSnapshot s
       (getCompletePrescriptionData s none none (some newRightPrism) none)))
  | .left =>
    let newLeftPrism := setPrismField s.leftPrism f v
    ({ s with leftPrism := newLeftPrism },
     some (manualSnapshot s
       (getCompletePrescriptionData s none none none (some newLeftPrism))))

/-- The user events the component can receive. -/
inductive Event where
  | eyesightChange (value : String)
  | lensTypeChange (lensTypeId : String)
  | prescriptionTypeChange (t : PrescriptionType)
  | fileChange (file : UploadedFile)
  | removeFile
  | eyeFieldChange (side : EyeSide) (f : EyeField) (v : String)
  | twoPDChange (checked : Bool)
  | addPrismChange (checked : Bool)
  | singlePDChange (v : String)
  | dualPDChange (side : EyeSide) (v : String)
  | prismFieldChange (side : EyeSide) (f : PrismField) (v : String)
deriving Repr, DecidableEq

/-- The prescription-entry section (step 3) is rendered only when
`hasEyesight && selectedLensType` (line 881). -/
def stepThreeVisible (s : SelectorState) : Prop :=
  s.hasEyesight = true ∧ s.selectedLensType ≠ ""

instance (s : SelectorState) : Decidable (stepThreeVisible s) := by
  unfold stepThreeVisible; infer_instance

/-- The manual-entry pane is interactable only when step 3 is rendered and
prescriptionType is manual (the pane is CSS-hidden otherwise, line 989). -/
def manualVisible (s : SelectorState) : Prop :=
  stepThreeVisible s ∧ s.prescriptionType = .manual

instance (s : SelectorState) : Decidable (manualVisible s) := by
  unfold manualVisible; infer_instance

/-- One step of the Configuration Builder: dispatches the event to its
handler when the triggering control is rendered and interactable, and is a
no-op otherwise. Guards follow the JSX rendering conditions: the upload
pane requires prescriptionType upload (line 910), the remove button a
present file (line 938), the single/dual PD selects the matching
twoPDNumbers mode (line 1272), the prism selects addPrism (line 1364). -/
def step (s : SelectorState) (e : Event) : SelectorState × Option LensConfiguration :=
  match e with
  | .eyesightChange v => handleEyesightChange s v
  | .lensTypeChange id => handleLensTypeChange s id
  | .prescriptionTypeChange t =>
    if stepThreeVisible s then handlePrescriptionTypeChange s t else (s, none)
  | .fileChange f =>
    if stepThreeVisible s ∧ s.prescriptionType = .upload then handleFileChange s f
    else (s, none)
  | .removeFile =>
    if stepThreeVisible s ∧ s.prescriptionType = .upload ∧ s.prescriptionFile ≠ none then
      handleRemoveFile s
    else (s, none)
  | .eyeFieldChange side f v =>
    if manualVisible s then handleEyeFieldChange s side f v else (s, none)
  | .twoPDChange b =>
    if manualVisible s then handleTwoPDChange s b else (s, none)
  | .addPrismChange b =>
    if manualVisible s then handleAddPrismChange s b else (s, none)
  | .singlePDChange v =>
    if manualVisible s ∧ s.twoPDNumbers = false then handleSinglePDChange s v
    else (s, none)
  | .dualPDChange side v =>
    if manualVisible s ∧ s.twoPDNumbers = true then handleDualPDChange s side v
    else (s, none)
  | .prismFieldChange side f v =>
    if manualVisible s ∧ s.addPrism = true then handlePrismFieldChange s side f v
    else (s, none)

/-- States the builder can actually be in: the initial state and anything
an event sequence leads to. -/
inductive Reachable : SelectorState → Prop where
  | init : Reachable initialState
  | next (s : SelectorState) (e : Event) : Reachable s → Reachable (step s e).1

/-! ## Checkout-eligibility validation (ProductDetail.tsx lines 223-251) -/

/-- Truthiness of one eye record in the validation check: at least one of
its string fields nonempty. -/
def eyeHasData (e : EyeData) : Bool :=
  e.sph != "" || e.cyl != "" || e.axis != "" || e.add != "" || e.pd != ""

/-- isLensConfigurationValid, ProductDetail.tsx lines 223-251: products
without lens options always pass; a truthy lensTypeId is required; with
hasEyesight, a prescriptionType is required, upload requires a file, and
manual with a present prescriptionData object requires some nonempty eye
field (manual with prescriptionData absent falls through to true). -/
def isLensConfigurationValid (hasLensOptions : Bool) (cfg : LensConfiguration) : Bool :=
  if ¬ hasLensOptions then true
  else if ¬ optStrTruthy cfg.lensTypeId then false
  else if cfg.hasEyesight then
    match cfg.prescriptionType, cfg.prescriptionImage, cfg.prescriptionData with
    | none, _, _ => false
    | some .upload, none, _ => false
    | some .manual, _, some d =>
      if ¬ eyeHasData d.rightEye ∧ ¬ eyeHasData d.leftEye then false else true
    | _, _, _ => true
  else true

/-- Modelled from the words of the spec validation contract: a
configuration is checkout-eligible iff the product requires no lens
options, OR (lensTypeId is set AND (hasEyesight = false OR
(prescriptionType is set AND (upload implies a file is attached) AND
(manual implies at least one non-empty field exists across both eyes)))).
With prescriptionData absent there is no non-empty field, so the manual
implication fails. -/
def specCheckoutEligible (hasLensOptions : Bool) (cfg : LensConfiguration) : Bool :=
  !hasLensOptions ||
    (optStrTruthy cfg.lensTypeId &&
      (!cfg.hasEyesight ||
        (cfg.prescriptionType.isSome &&
         (!(decide (cfg.prescriptionType = some .upload)) || cfg.prescriptionImage.isSome) &&
         (!(decide (cfg.prescriptionType = some .manual)) ||
           (match cfg.prescriptionData with
            | some d => eyeHasData d.rightEye || eyeHasData d.leftEye
            | none => false)))))

/-- The eligibility predicate amended to what the code implements: the
non-empty-field requirement for manual entry applies only when a
prescriptionData object is present. -/
def specCheckoutEligibleAmended (hasLensOptions : Bool) (cfg : LensConfiguration) : Bool :=
  !hasLensOptions ||
    (optStrTruthy cfg.lensTypeId &&
      (!cfg.hasEyesight ||
        (cfg.prescriptionType.isSome &&
         (!(decide (cfg.prescriptionType = some .upload)) || cfg.prescriptionImage.isSome) &&
         (!(decide (cfg.prescriptionType = some .manual)) ||
           (match cfg.prescriptionData with
            | some d => eyeHasData d.rightEye || eyeHasData d.leftEye
            | none => true)))))

/-! ## Admin order detail (admin/Orders.tsx) -/

/-- The render gate for the prism sub-table in the admin order detail,
admin/Orders.tsx line 679: `item.prescription_data.addPrism && (...)`. -/
def adminRendersPrismTable (d : PrescriptionRecord) : Bool :=
  d.addPrism

/-! ## Concrete instances used in witnesses and counterexamples -/

/-- The end-to-end pricing scenario of the spec: base price 4500. -/
def exampleProduct : Product :=
  { id := "p1", base_price := 4500, has_lens_options := true }

/-- One variant with adjustment +200. -/
def exampleVariants : List ProductVariant :=
  [{ id := "v1", price_adjustment := some 200 }]

/-- One lens type with adjustment +2500. -/
def exampleLensTypes : List LensTypeRow :=
  [{ id := "lt1", price_adjustment := some 2500 }]

/-- A configuration that has selected lens type lt1 and nothing else. -/
def exampleCfg : LensConfiguration :=
  { hasEyesight := false, lensTypeId := some "lt1", prescriptionType := none,
    prescriptionImage := none, prescriptionData := none }

/-- A configuration with prescription type manual but no prescriptionData
object; reachable, e.g. by re-selecting the eyesight mode after choosing
manual entry (handleEyesightChange emits no prescriptionData). -/
def cfgManualNoData : LensConfiguration :=
  { hasEyesight := true, lensTypeId := some "lt1", prescriptionType := some .manual,
    prescriptionImage := none, prescriptionData := none }

/-- A filled manual prescription record. -/
def samplePrescription : PrescriptionRecord :=
  { rightEye := { sph := "+1.00", cyl := "-0.50", axis := "90", add := "+1.25", pd := "32" }
    leftEye := { sph := "-0.25", cyl := "0.00", axis := "10", add := "0.00", pd := "33" }
    rightPrism := none
    leftPrism := none
    twoPDNumbers := true
    addPrism := false }

/-- A complete manual configuration as it stands right before add to cart. -/
def sampleManualConfig : LensConfiguration :=
  { hasEyesight := true, lensTypeId := some "lt1", prescriptionType := some .manual,
    prescriptionImage := none, prescriptionData := some samplePrescription }

/-- The builder state after selecting lens type lt1, picking eyesight
lenses and choosing manual entry (reachable from initialState). -/
def manualReadyState : SelectorState :=
  { initialState with
    hasEyesight := true
    selectedLensType := "lt1"
    prescriptionType := .manual }

/-- manualReadyState with the prism section opened. -/
def prismReadyState : SelectorState :=
  { manualReadyState with addPrism := true }

/-- The snapshot the single-PD select emits for value 64 from
manualReadyState, written out in full. -/
def singlePD64Snapshot : LensConfiguration :=
  { hasEyesight := true
    lensTypeId := some "lt1"
    prescriptionType := some .manual
    prescriptionImage := none
    prescriptionData := some
      { rightEye := { sph := "0.00", cyl := "0.00", axis := "0", add := "0.00", pd := "64" }
        leftEye := { sph := "0.00", cyl := "0.00", axis := "0", add := "0.00", pd := "64" }
        rightPrism := none
        leftPrism := none
        twoPDNumbers := false
        addPrism := false } }

/-- The single-PD invariant on builder state: when twoPDNumbers is off, the
two pd cells agree. -/
def pdInv (s : SelectorState) : Prop :=
  s.twoPDNumbers = false → s.rightEye.pd = s.leftEye.pd


/-- Claim C10: a cart-context addToCart call with only a product id (the
product-card quick-add) inserts a row with quantity 1, has_eyesight false
and null variant, lens type, prescription data and prescription image. -/
theorem productCardQuickAdd_defaults :
    ∀ id : String, productCardQuickAdd id =
      { product_id := id, variant_id := none, lens_type_id := none, quantity := 1,
        has_eyesight := false, prescription_data := none,
        prescription_image_url := none } := by
  intro id
  rfl

/-- Claim C9: with threshold 5000 and fee 200, shipping is zero exactly
when the subtotal exceeds the threshold, the fee otherwise, and the order
total is subtotal plus shipping. -/
theorem shippingCost_flat_rule :
    ∀ items : List CheckoutCartItem,
      (subtotal items > 5000 → shippingCost items = 0) ∧
      (¬ subtotal items > 5000 → shippingCost items = 200) ∧
      checkoutTotal items = subtotal items + shippingCost items := by
  intro items
  refine ⟨?_, ?_, rfl⟩ <;> intro h <;> simp [shippingCost, h]

/-- Witness for C9 at the empty cart: subtotal 0, shipping 200. -/
theorem shippingCost_flat_rule_witness :
    shippingCost ([] : List CheckoutCartItem) = 200 :=
  (shippingCost_flat_rule []).2.1 (by decide)

/-- Claim C2 (code bug): the product-detail add-to-cart path drops the
lens configuration. For a manual-prescription configuration the inserted
cart row has has_eyesight false and null prescription columns, and the
order item placed from that row carries null prescription data, although
the configuration had hasEyesight true and a populated prescription. -/
theorem productDetail_addToCart_drops_prescription :
    sampleManualConfig.hasEyesight = true ∧
    sampleManualConfig.prescriptionData = some samplePrescription ∧
    (productDetailAddToCart exampleProduct "v1" sampleManualConfig 1).has_eyesight = false ∧
    (productDetailAddToCart exampleProduct "v1" sampleManualConfig 1).prescription_data = none ∧
    (productDetailAddToCart exampleProduct "v1" sampleManualConfig 1).prescription_image_url = none ∧
    (orderItemOf "o1" (checkoutItemOfRow
        (productDetailAddToCart exampleProduct "v1" sampleManualConfig 1)
        4500 (some (some 200)) (some (some 2500)))).prescription_data = none := by
  refine ⟨rfl, rfl, rfl, rfl, rfl, rfl⟩


/-- Claim C1: the product-page total equals the per-unit price times
quantity, the per-unit price does not depend on the quantity, and when the
selected variant and lens type resolve to adjustments va and la the total
is (basePrice + va + la) * quantity; concretely 4500 + 200 + 2500 at
quantity 2 gives 14400 and at quantity 1 gives 7200. -/
theorem calculateTotalPrice_matches_spec :
    (∀ p vs ls sv cfg (q : ℕ),
       calculateTotalPrice p vs ls sv cfg q =
         calculateTotalPrice p vs ls sv cfg 1 * (q : ℚ)) ∧
    (∀ p vs ls sv cfg (q : ℕ) v va l la,
       sv ≠ "" →
       vs.find? (fun x => decide (x.id = sv)) = some v →
       v.price_adjustment = some va →
       optStrTruthy cfg.lensTypeId = true →
       ls.find? (fun x => decide (some x.id = cfg.lensTypeId)) = some l →
       l.price_adjustment = some la →
       calculateTotalPrice p vs ls sv cfg q = (p.base_price + va + la) * (q : ℚ)) ∧
    calculateTotalPrice exampleProduct exampleVariants exampleLensTypes "v1" exampleCfg 2
      = 14400 ∧
    calculateTotalPrice exampleProduct exampleVariants exampleLensTypes "v1" exampleCfg 1
      = 7200 := by
  refine ⟨?_, ?_, ?ex2, ?ex1⟩
  case ex2 =>
    simp [calculateTotalPrice, exampleProduct, exampleVariants, exampleLensTypes,
      exampleCfg, optStrTruthy, List.find?]
    norm_num
  case ex1 =>
    simp [calculateTotalPrice, exampleProduct, exampleVariants, exampleLensTypes,
      exampleCfg, optStrTruthy, List.find?]
    norm_num
  · intro p vs ls sv cfg q
    simp only [calculateTotalPrice, Nat.cast_one, mul_one]
  · intro p vs ls sv cfg q v va l la hsv hfv hva hlt hfl hla
    by_cases h1 : va = 0 <;> by_cases h2 : la = 0 <;>
      simp [calculateTotalPrice, hfv, hva, hlt, hfl, hla, bne_iff_ne, hsv, h1, h2]

end Tashna


namespace Tashna

/-- Witness for C1 at the spec scenario, discharging the lookup
hypotheses at the concrete catalog rows. -/
theorem calculateTotalPrice_matches_spec_witness :
    calculateTotalPrice exampleProduct exampleVariants exampleLensTypes "v1" exampleCfg 2
      = (exampleProduct.base_price + 200 + 2500) * ((2 : ℕ) : ℚ) :=
  calculateTotalPrice_matches_spec.2.1 exampleProduct exampleVariants exampleLensTypes "v1"
    exampleCfg 2 { id := "v1", price_adjustment := some 200 } 200
    { id := "lt1", price_adjustment := some 2500 } 2500
    (by decide) rfl rfl rfl rfl rfl


/-- Counterexample to C3 as stated: the configuration with
prescriptionType manual and no prescriptionData object is accepted by
isLensConfigurationValid although the spec eligibility predicate, whose
manual clause demands a non-empty field across both eyes, rejects it. -/
theorem validity_spec_iff_fails_on_manual_without_data :
    isLensConfigurationValid true cfgManualNoData = true ∧
    specCheckoutEligible true cfgManualNoData = false := by
  constructor <;> rfl

/-- Helper: the validity check equals the amended eligibility predicate
on every input. -/
theorem valid_eq_amended_aux (h : Bool) (cfg : LensConfiguration) :
    isLensConfigurationValid h cfg = specCheckoutEligibleAmended h cfg := by
  obtain ⟨he, lt, pt, pi, pd⟩ := cfg
  cases h
  · rfl
  · cases he
    · cases hlt : optStrTruthy lt <;>
        simp [isLensConfigurationValid, specCheckoutEligibleAmended, hlt]
    · cases hlt : optStrTruthy lt
      · simp [isLensConfigurationValid, specCheckoutEligibleAmended, hlt]
      · rcases pt with _ | pt
        · simp [isLensConfigurationValid, specCheckoutEligibleAmended, hlt]
        · cases pt <;> rcases pi with _ | pi <;> rcases pd with _ | pd <;>
            simp [isLensConfigurationValid, specCheckoutEligibleAmended, hlt]

/-- Claim C3 (amended): the code validity check coincides with the spec
eligibility predicate amended so that the manual non-empty-field
requirement applies only when a prescriptionData object is present; and a
product requiring lens options with lensTypeId unset is never eligible. -/
theorem isLensConfigurationValid_amended :
    (∀ (h : Bool) (cfg : LensConfiguration),
       isLensConfigurationValid h cfg = specCheckoutEligibleAmended h cfg) ∧
    (∀ cfg : LensConfiguration, optStrTruthy cfg.lensTypeId = false →
       isLensConfigurationValid true cfg = false) := by
  refine ⟨valid_eq_amended_aux, ?_⟩
  intro cfg hlt
  simp [isLensConfigurationValid, hlt]

/-- Witness for C3: a configuration with lensTypeId unset is rejected. -/
theorem isLensConfigurationValid_amended_witness :
    isLensConfigurationValid true
      { hasEyesight := true, lensTypeId := none, prescriptionType := some .manual,
        prescriptionImage := none, prescriptionData := some samplePrescription } = false :=
  isLensConfigurationValid_amended.2 _ rfl


/-- Claim C4: handleFileChange rejects exactly the files whose MIME type
is outside validTypes or whose size exceeds 5 * 1024 * 1024 bytes, leaving
the state unchanged and emitting no snapshot; an accepted file is stored
and the emitted snapshot has hasEyesight true and prescriptionType
upload. -/
theorem handleFileChange_validation :
    ∀ (s : SelectorState) (f : UploadedFile),
      ((f.type ∉ validTypes ∨ f.size > 5 * 1024 * 1024) →
        handleFileChange s f = (s, none)) ∧
      (f.type ∈ validTypes → f.size ≤ 5 * 1024 * 1024 →
        handleFileChange s f =
          ({ s with prescriptionFile := some f, hasEyesight := true },
           some { hasEyesight := true
                  lensTypeId := some s.selectedLensType
                  prescriptionType := some .upload
                  prescriptionImage := some f
                  prescriptionData := none })) := by
  intro s f
  constructor
  · rintro (h | h)
    · simp [handleFileChange, h]
    · by_cases hm : f.type ∈ validTypes <;> simp [handleFileChange, hm, h]
  · intro h1 h2
    simp [handleFileChange, h1, Nat.not_lt.mpr h2]

/-- Witness for C4: a txt file and an oversized png are rejected, a
small jpeg is accepted. -/
theorem handleFileChange_validation_witness :
    (handleFileChange initialState { name := "rx.txt", type := "text/plain", size := 10 }
       = (initialState, none)) ∧
    (handleFileChange initialState
       { name := "big.png", type := "image/png", size := 6 * 1024 * 1024 }
       = (initialState, none)) ∧
    (handleFileChange initialState { name := "rx.jpg", type := "image/jpeg", size := 1000 }
       = ({ initialState with
            prescriptionFile := some { name := "rx.jpg", type := "image/jpeg", size := 1000 }
            hasEyesight := true },
          some { hasEyesight := true
                 lensTypeId := some initialState.selectedLensType
                 prescriptionType := some .upload
                 prescriptionImage := some { name := "rx.jpg", type := "image/jpeg", size := 1000 }
                 prescriptionData := none })) :=
  ⟨(handleFileChange_validation initialState _).1 (Or.inl (by decide)),
   (handleFileChange_validation initialState _).1 (Or.inr (by decide)),
   (handleFileChange_validation initialState _).2 (by decide) (by decide)⟩


/-- Helper: manualReadyState is reached by selecting lens type lt1,
choosing eyesight lenses and picking manual entry. -/
theorem reachable_manualReadyState : Reachable manualReadyState := by
  have h1 : Reachable (step initialState (.lensTypeChange "lt1")).1 :=
    .next _ _ .init
  have h2 : Reachable (step (step initialState (.lensTypeChange "lt1")).1
      (.eyesightChange "yes")).1 := .next _ _ h1
  have h3 : Reachable (step (step (step initialState (.lensTypeChange "lt1")).1
      (.eyesightChange "yes")).1 (.prescriptionTypeChange .manual)).1 := .next _ _ h2
  have he : (step (step (step initialState (.lensTypeChange "lt1")).1
      (.eyesightChange "yes")).1 (.prescriptionTypeChange .manual)).1
      = manualReadyState := by decide
  exact he ▸ h3

/-- Claim C5 (code bug): editing the right-eye SPH updates the stored
state but the snapshot emitted for that edit still carries the previous
SPH value, because the handler calls getCompletePrescriptionData with no
arguments; sibling handlers such as right CYL and left SPH emit the new
value as the claim requires. -/
theorem rightEye_sph_edit_emits_stale_snapshot :
    Reachable manualReadyState ∧
    (step manualReadyState (.eyeFieldChange .right .sph "+1.00")).1.rightEye.sph
      = "+1.00" ∧
    (((step manualReadyState (.eyeFieldChange .right .sph "+1.00")).2.bind
        (fun c => c.prescriptionData)).map (fun d => d.rightEye.sph)) = some "0.00" ∧
    (((step manualReadyState (.eyeFieldChange .right .cyl "-0.50")).2.bind
        (fun c => c.prescriptionData)).map (fun d => d.rightEye.cyl)) = some "-0.50" ∧
    (((step manualReadyState (.eyeFieldChange .left .sph "+1.00")).2.bind
        (fun c => c.prescriptionData)).map (fun d => d.leftEye.sph)) = some "+1.00" :=
  ⟨reachable_manualReadyState, by decide, by decide, by decide, by decide⟩


/-- Counterexample to C6 as stated: selecting eyesight lenses in the
initial state emits a snapshot with hasEyesight true in which neither
prescriptionImage nor prescriptionData is populated. -/
theorem eyesight_snapshot_has_neither_branch :
    (step initialState (.eyesightChange "yes")).2
      = some { hasEyesight := true, lensTypeId := none,
               prescriptionType := some .upload,
               prescriptionImage := none, prescriptionData := none } := by
  decide

/-- Claim C6 (amended): in every emitted snapshot at most one of
prescriptionImage and prescriptionData is populated and the populated
branch matches prescriptionType; switching the prescription type emits a
snapshot that excludes the other branch. A snapshot with hasEyesight true
may have neither branch populated. -/
theorem emitted_snapshot_at_most_one_branch :
    (∀ (s : SelectorState) (t : PrescriptionType) (c : LensConfiguration),
      (step s (.prescriptionTypeChange t)).2 = some c →
      (t = .upload → c.prescriptionData = none) ∧
      (t = .manual → c.prescriptionImage = none)) ∧
    ∀ (s : SelectorState) (e : Event) (c : LensConfiguration),
      (step s e).2 = some c →
      (c.prescriptionImage = none ∨ c.prescriptionData = none) ∧
      (c.prescriptionImage ≠ none → c.prescriptionType = some .upload) ∧
      (c.prescriptionData ≠ none → c.prescriptionType = some .manual) := by
  constructor
  · intro s t c h
    simp only [step, handlePrescriptionTypeChange] at h
    split at h
    · simp only [Option.some.injEq] at h
      subst h
      cases t <;> simp
    · simp_all
  intro s e c h
  cases e <;>
    simp only [step, handleEyesightChange, handleLensTypeChange,
      handlePrescriptionTypeChange, handleFileChange, handleRemoveFile,
      handleEyeFieldChange, handleTwoPDChange, handleAddPrismChange,
      handleSinglePDChange, handleDualPDChange, handlePrismFieldChange,
      manualSnapshot] at h <;>
    (try split at h) <;>
    (try split at h) <;>
    (try split at h) <;>
    simp_all <;>
    (try subst h) <;>
    simp_all [manualSnapshot]


/-- Witness for C6 at the snapshot the single-PD select emits from
manualReadyState. -/
theorem emitted_snapshot_at_most_one_branch_witness :
    (singlePD64Snapshot.prescriptionImage = none ∨
      singlePD64Snapshot.prescriptionData = none) ∧
    (singlePD64Snapshot.prescriptionImage ≠ none →
      singlePD64Snapshot.prescriptionType = some .upload) ∧
    (singlePD64Snapshot.prescriptionData ≠ none →
      singlePD64Snapshot.prescriptionType = some .manual) :=
  emitted_snapshot_at_most_one_branch.2 manualReadyState (.singlePDChange "64")
    singlePD64Snapshot (by decide)

/-- pd is untouched by the sph, cyl, axis and add field setters. -/
theorem setEyeField_pd (e : EyeData) (f : EyeField) (v : String) :
    (setEyeField e f v).pd = e.pd := by
  cases f <;> rfl

theorem step_preserves_pdInv (s : SelectorState) (e : Event) (h : pdInv s) :
    pdInv (step s e).1 := by
  cases e <;>
    simp only [step, handleEyesightChange, handleLensTypeChange,
      handlePrescriptionTypeChange, handleFileChange, handleRemoveFile,
      handleEyeFieldChange, handleTwoPDChange, handleAddPrismChange,
      handleSinglePDChange, handleDualPDChange, handlePrismFieldChange] <;>
    (try split) <;> (try split) <;> (try split) <;>
    simp_all [pdInv, setEyeField_pd]


theorem reachable_pdInv : ∀ s : SelectorState, Reachable s → pdInv s := by
  intro s h
  induction h with
  | init => intro _; rfl
  | next s e _ ih => exact step_preserves_pdInv s e ih

/-- Claim C7: in every reachable state with twoPDNumbers off the two pd
cells agree, every emitted snapshot whose prescription data says
twoPDNumbers is off has equal pd values, and the single-PD select writes
the chosen value into both eyes of the emitted snapshot. -/
theorem single_pd_kept_identical :
    (∀ s : SelectorState, Reachable s → s.twoPDNumbers = false →
       s.rightEye.pd = s.leftEye.pd) ∧
    (∀ s : SelectorState, Reachable s →
       ∀ (e : Event) (c : LensConfiguration) (d : PrescriptionRecord),
         (step s e).2 = some c → c.prescriptionData = some d →
         d.twoPDNumbers = false → d.rightEye.pd = d.leftEye.pd) ∧
    (∀ (s : SelectorState) (v : String), manualVisible s → s.twoPDNumbers = false →
       (((step s (.singlePDChange v)).2.bind (fun c => c.prescriptionData)).map
          (fun d => (d.rightEye.pd, d.leftEye.pd))) = some (v, v)) := by
  refine ⟨reachable_pdInv, ?_, ?_⟩
  · intro s hs e c d hc hd htwo
    have hinv : pdInv s := reachable_pdInv s hs
    cases e <;>
      simp only [step, handleEyesightChange, handleLensTypeChange,
        handlePrescriptionTypeChange, handleFileChange, handleRemoveFile,
        handleEyeFieldChange, handleTwoPDChange, handleAddPrismChange,
        handleSinglePDChange, handleDualPDChange, handlePrismFieldChange,
        manualSnapshot, getCompletePrescriptionData] at hc <;>
      (try split at hc) <;> (try split at hc) <;> (try split at hc) <;>
      (try simp only [Option.some.injEq] at hc) <;>
      (try rw [← hc] at hd) <;>
      (try simp only [Option.some.injEq] at hd) <;>
      (try subst hd) <;>
      simp_all [pdInv, setEyeField_pd]
  · intro s v hm htwo
    simp [step, hm, htwo, handleSinglePDChange, manualSnapshot,
      getCompletePrescriptionData]

/-- Witness for C7 at the initial state and at a concrete single-PD
selection of 64. -/
theorem single_pd_kept_identical_witness :
    initialState.rightEye.pd = initialState.leftEye.pd ∧
    (((step manualReadyState (.singlePDChange "64")).2.bind
        (fun c => c.prescriptionData)).map (fun d => (d.rightEye.pd, d.leftEye.pd)))
      = some ("64", "64") :=
  ⟨single_pd_kept_identical.1 initialState .init rfl,
   single_pd_kept_identical.2.2 manualReadyState "64" (by decide) rfl⟩


/-- Helper: getCompletePrescriptionData populates the prism branches
exactly when addPrism is set. -/
theorem getComplete_prism_gate (s : SelectorState)
    (cr cl : Option EyeData) (crp clp : Option PrismData) :
    ((getCompletePrescriptionData s cr cl crp clp).rightPrism.isSome
        = (getCompletePrescriptionData s cr cl crp clp).addPrism) ∧
    ((getCompletePrescriptionData s cr cl crp clp).leftPrism.isSome
        = (getCompletePrescriptionData s cr cl crp clp).addPrism) := by
  cases h : s.addPrism <;> simp [getCompletePrescriptionData, h]

/-- Claim C8: every emitted prescription payload contains rightPrism and
leftPrism exactly when its addPrism flag is true, and the admin order
detail renders the prism sub-table exactly when addPrism is true in the
stored data. -/
theorem prism_emitted_iff_addPrism :
    (∀ (s : SelectorState) (e : Event) (c : LensConfiguration) (d : PrescriptionRecord),
       (step s e).2 = some c → c.prescriptionData = some d →
       d.rightPrism.isSome = d.addPrism ∧ d.leftPrism.isSome = d.addPrism) ∧
    (∀ d : PrescriptionRecord, adminRendersPrismTable d = d.addPrism) := by
  refine ⟨?_, fun d => rfl⟩
  intro s e c d hc hd
  cases e <;>
    simp only [step, handleEyesightChange, handleLensTypeChange,
      handlePrescriptionTypeChange, handleFileChange, handleRemoveFile,
      handleEyeFieldChange, handleTwoPDChange, handleAddPrismChange,
      handleSinglePDChange, handleDualPDChange, handlePrismFieldChange,
      manualSnapshot] at hc <;>
    (try split at hc) <;> (try split at hc) <;> (try split at hc) <;>
    (try simp only [Option.some.injEq] at hc) <;>
    (try rw [← hc] at hd) <;>
    (try simp only [Option.some.injEq] at hd) <;>
    (try subst hd) <;>
    simp_all [getComplete_prism_gate]

/-- Witness for C8 at a concrete prism edit from prismReadyState. -/
theorem prism_emitted_iff_addPrism_witness :
    ((((step prismReadyState (.prismFieldChange .right .verticalPrism "1.50")).2.bind
        (fun c => c.prescriptionData)).map
          (fun d => (d.rightPrism.isSome, d.addPrism))) = some (true, true)) ∧
    adminRendersPrismTable samplePrescription = samplePrescription.addPrism := by
  constructor
  · have h := (prism_emitted_iff_addPrism.1 prismReadyState
      (.prismFieldChange .right .verticalPrism "1.50")
      (manualSnapshot prismReadyState
        (getCompletePrescriptionData prismReadyState none none
          (some (setPrismField prismReadyState.rightPrism .verticalPrism "1.50")) none))
      (getCompletePrescriptionData prismReadyState none none
        (some (setPrismField prismReadyState.rightPrism .verticalPrism "1.50")) none)
      (by decide) rfl)
    simp [step, manualSnapshot, h.1]
    decide
  · exact prism_emitted_iff_addPrism.2 samplePrescription

end Tashna
